import Mathlib

/-!
Verification of the retry/cache data loader and KPI arithmetic of the sales
dashboard (`src/frontend/app.py`).

The bespoke logic of the program is:

* `load_data(retries=5, delay=10)`: a `for attempt in range(retries)` loop
  that on each iteration tries to connect and run `SELECT * FROM sales_data`;
  on success it returns the fetched DataFrame; on `OperationalError` it
  sleeps `delay` and retries unless it was the last attempt, in which case it
  emits one `st.warning` and returns `pd.DataFrame()` (empty); any other
  exception propagates.  With `retries = 0` the loop body never runs and the
  function falls through, returning Python's implicit `None`.

* `calculate_kpis(df)`: sums and means over the `total_value`,
  `quantity_sold` and `gross_profit` columns, with a zero guard on the
  gross-profit-margin division.

We embed the loader as a function from the sequence of outcomes the
successive connection attempts would have (one list entry per attempt the
loop is allowed to make, so the length of the list is the `retries`
parameter) to a trace recording how many attempts executed, the sequence of
sleeps performed, how many warnings were emitted, and what the call
returned.  Numeric data is modelled by `ℚ`; a pandas mean of an empty
column (`NaN`) is modelled by `Option.none`.
-/

/-- Default value of the `retries` parameter of `load_data` in the source. -/
def DEFAULT_RETRIES : Nat := 5

/-- Default value of the `delay` parameter of `load_data` in the source. -/
def DEFAULT_DELAY : Nat := 10

/-- The `ttl=60` argument of the `st.cache_data` decorator in the source. -/
def TTL : Nat := 60

/-- Outcome a single connection attempt would have: the query succeeds and
yields a DataFrame `d`, the attempt raises `sqlalchemy.exc.OperationalError`,
or it raises any other exception. -/
inductive AttemptOutcome (α : Type) where
  | ok (d : α)
  | opError
  | otherError
deriving DecidableEq, Repr

/-- What a call to `load_data` produces: a fetched DataFrame, the explicit
empty `pd.DataFrame()` fallback, a propagated exception, or Python's
implicit `None` (the loop body never ran). -/
inductive LoadReturn (α : Type) where
  | df (d : α)
  | empty
  | exn
  | pyNone
deriving DecidableEq, Repr

/-- Observable trace of one call to `load_data`: how many loop iterations
(connection attempts) executed, the sleep durations performed in order, the
number of `st.warning` calls, and the returned value. -/
structure LoadTrace (α : Type) where
  attempts : Nat
  sleeps : List Nat
  warnings : Nat
  result : LoadReturn α
deriving DecidableEq, Repr

variable {α : Type}

/-- Embedding of `load_data` from `src/frontend/app.py`.  `outcomes` lists,
in order, the outcome each successive connection attempt would have; its
length is the `retries` parameter, so `attempt < retries - 1` (the loop is
not at its final iteration) is exactly "the tail of the list is nonempty".
Branches, in the order of the source: the `try` body returns the fetched
DataFrame; `except OperationalError` on a non-final attempt sleeps `delay`
and continues; on the final attempt it warns once and returns an empty
DataFrame; any other exception propagates out of the function.  An empty
`outcomes` (i.e. `retries = 0`) skips the loop and returns implicit `None`. -/
def load_data (delay : Nat) : List (AttemptOutcome α) → LoadTrace α
  | [] => ⟨0, [], 0, .pyNone⟩
  | .ok d :: _ => ⟨1, [], 0, .df d⟩
  | .otherError :: _ => ⟨1, [], 0, .exn⟩
  | [.opError] => ⟨1, [], 1, .empty⟩
  | .opError :: o :: rest =>
      let t := load_data delay (o :: rest)
      ⟨t.attempts + 1, delay :: t.sleeps, t.warnings, t.result⟩

/-- One sales record, restricted to the three numeric columns the KPI
function reads. -/
structure SalesRecord where
  total_value : ℚ
  quantity_sold : ℚ
  gross_profit : ℚ
deriving DecidableEq, Repr

/-- Pandas `Series.mean`: `NaN` (modelled as `none`) on an empty column,
otherwise the sum divided by the length. -/
def series_mean (xs : List ℚ) : Option ℚ :=
  if xs.isEmpty then none else some (xs.sum / xs.length)

/-- The five values returned by `calculate_kpis`. -/
structure KPIs where
  total_revenue : ℚ
  avg_order_value : Option ℚ
  total_quantity_sold : ℚ
  avg_quantity_sold : Option ℚ
  gross_profit_margin : ℚ
deriving DecidableEq, Repr

/-- Embedding of `calculate_kpis` from `src/frontend/app.py`: column sums
and means, and the gross profit margin
`(df['gross_profit'].sum() / total_revenue * 100) if total_revenue != 0 else 0`. -/
def calculate_kpis (df : List SalesRecord) : KPIs :=
  let total_revenue : ℚ := (df.map SalesRecord.total_value).sum
  let avg_order_value : Option ℚ := series_mean (df.map SalesRecord.total_value)
  let total_quantity_sold : ℚ := (df.map SalesRecord.quantity_sold).sum
  let avg_quantity_sold : Option ℚ := series_mean (df.map SalesRecord.quantity_sold)
  let gross_profit_margin : ℚ :=
    if total_revenue ≠ 0 then (df.map SalesRecord.gross_profit).sum / total_revenue * 100
    else 0
  ⟨total_revenue, avg_order_value, total_quantity_sold, avg_quantity_sold,
    gross_profit_margin⟩

/-- Cache entry of the framework cache: the memoized value and the timestamp
of the refresh that produced it. -/
structure CacheEntry (α : Type) where
  value : α
  timestamp : Nat
deriving DecidableEq, Repr

/-- Modelled from the spec: the caching layer is the third-party
`st.cache_data(ttl=60)` decorator, whose code is not part of this
repository; only its configuration appears in `src/frontend/app.py`.  Per
the spec, the cache "maintains process-wide state: a cached result and a
timestamp of last refresh, with a fixed time-to-live"; "a call within the
TTL window returns the cached collection without contacting the store"; a
successful fetch "refreshes the cache entry (value + timestamp)".
`cached_call ttl fetch now s` returns the value delivered to the caller,
the cache state after the call, and whether the underlying store was
contacted. -/
def cached_call (ttl : Nat) (fetch : Nat → α) (now : Nat) :
    Option (CacheEntry α) → α × Option (CacheEntry α) × Bool
  | some e =>
      if now < e.timestamp + ttl then (e.value, some e, false)
      else (fetch now, some ⟨fetch now, now⟩, true)
  | none => (fetch now, some ⟨fetch now, now⟩, true)

/-- A pandas DataFrame as it flows through the program: `pd.read_sql` on
the `sales_data` table yields a frame that carries the table's columns even
when it has zero rows, while the `pd.DataFrame()` fallback returned on
retry exhaustion carries no columns at all. -/
inductive PandasDF where
  | salesTable (rows : List SalesRecord)
  | emptyFrame
deriving DecidableEq, Repr

/-- The `KeyError` pandas raises when a selected column is missing.  The
first column selection in `calculate_kpis` is `df['total_value']`, so that
is the key reported on the column-less frame. -/
inductive PandasKeyError where
  | total_value
deriving DecidableEq, Repr

/-- Embedding of `calculate_kpis` at the DataFrame level.  On a frame that
carries the `sales_data` columns it is exactly the row-level
`calculate_kpis`; on the column-less `pd.DataFrame()` the very first column
selection `df['total_value']` raises `KeyError`, modelled as
`Except.error`, before any KPI is computed. -/
def calculate_kpis_frame : PandasDF → Except PandasKeyError KPIs
  | .salesTable rows => .ok (calculate_kpis rows)
  | .emptyFrame => .error .total_value

/-- The DataFrame that `df = load_data()` binds in `main` for downstream
use: the fetched frame on success, the column-less `pd.DataFrame()` on
retry exhaustion, and no frame at all when an exception propagates out of
the call or when the loop never ran and the call evaluated to `None`. -/
def delivered : LoadReturn PandasDF → Option PandasDF
  | .df d => some d
  | .empty => some .emptyFrame
  | .exn => none
  | .pyNone => none

/-! ### Helper lemmas about the retry loop -/

lemma load_data_cons_opError (delay : Nat) (outs : List (AttemptOutcome α))
    (h : outs ≠ []) :
    load_data delay (.opError :: outs) =
      ⟨(load_data delay outs).attempts + 1, delay :: (load_data delay outs).sleeps,
       (load_data delay outs).warnings, (load_data delay outs).result⟩ := by
  cases outs with
  | nil => exact absurd rfl h
  | cons o r => rfl

lemma load_data_replicate_opError (delay n : Nat) :
    load_data delay (List.replicate (n + 1) (AttemptOutcome.opError (α := α))) =
      ⟨n + 1, List.replicate n delay, 1, .empty⟩ := by
  induction n with
  | zero => rfl
  | succ k ih =>
      rw [List.replicate_succ, load_data_cons_opError delay _ (by simp), ih]
      simp [List.replicate_succ]

lemma load_data_attempts_pos (delay : Nat) (o : AttemptOutcome α)
    (rest : List (AttemptOutcome α)) :
    1 ≤ (load_data delay (o :: rest)).attempts := by
  cases o <;> cases rest <;> simp [load_data]

lemma load_data_result_cases (delay : Nat) (outs : List (AttemptOutcome α))
    (hne : outs ≠ []) :
    (load_data delay outs).result = .empty ∨ (load_data delay outs).result = .exn ∨
      ∃ d, (load_data delay outs).result = .df d ∧ AttemptOutcome.ok d ∈ outs := by
  induction outs with
  | nil => exact absurd rfl hne
  | cons o rest ih =>
      cases o with
      | ok d => exact Or.inr (Or.inr ⟨d, rfl, List.mem_cons_self _ _⟩)
      | otherError => exact Or.inr (Or.inl rfl)
      | opError =>
          cases rest with
          | nil => exact Or.inl rfl
          | cons o2 r2 =>
              rw [load_data_cons_opError delay _ (by simp)]
              rcases ih (by simp) with h | h | ⟨d, hd, hmem⟩
              · exact Or.inl h
              · exact Or.inr (Or.inl h)
              · exact Or.inr (Or.inr ⟨d, hd, List.mem_cons_of_mem _ hmem⟩)

/-! ### Claim theorems -/

/-- C1: if at least one attempt is allowed and every connection attempt
fails with `OperationalError`, `load_data` returns the empty DataFrame (not
an exception) and exactly one warning is emitted during the whole call. -/
theorem load_data_all_opError_empty_one_warning (delay : Nat)
    (outs : List (AttemptOutcome α)) (hne : outs ≠ [])
    (hall : ∀ o ∈ outs, o = .opError) :
    (load_data delay outs).result = .empty ∧ (load_data delay outs).warnings = 1 := by
  have h : outs = List.replicate outs.length .opError := List.eq_replicate_length.2 hall
  obtain ⟨n, hn⟩ : ∃ n, outs.length = n + 1 := by
    cases outs with
    | nil => exact absurd rfl hne
    | cons o r => exact ⟨r.length, rfl⟩
  rw [h, hn, load_data_replicate_opError]
  exact ⟨rfl, rfl⟩

theorem load_data_all_opError_empty_one_warning_witness :
    (load_data 10 (List.replicate 5 (AttemptOutcome.opError (α := Nat)))).result = .empty ∧
    (load_data 10 (List.replicate 5 (AttemptOutcome.opError (α := Nat)))).warnings = 1 :=
  load_data_all_opError_empty_one_warning 10 _ (by decide) (by decide)

/-- C2: if the first `i` attempts fail transiently and attempt `i + 1`
(1-indexed attempt `k = i + 1`, with `1 ≤ k ≤ retries` since the outcome
list has length `i + 1 + rest.length`) is the first to succeed, fetching
`d`, then `load_data` returns exactly `d` and emits no warning. -/
theorem load_data_success_returns_fetch (delay i : Nat) (d : α)
    (rest : List (AttemptOutcome α)) :
    (load_data delay
      (List.replicate i AttemptOutcome.opError ++ .ok d :: rest)).result = .df d ∧
    (load_data delay
      (List.replicate i AttemptOutcome.opError ++ .ok d :: rest)).warnings = 0 := by
  induction i with
  | zero => exact ⟨rfl, rfl⟩
  | succ k ih =>
      rw [List.replicate_succ, List.cons_append,
        load_data_cons_opError delay _ (by simp)]
      exact ih

/-- C3: the number of connection attempts never exceeds the configured
maximum (the length of the outcome list, 5 in the default configuration),
and the sleeps performed are exactly one fixed `delay` between each pair of
consecutive attempts — `attempts - 1` many — with no delay after the final
attempt. -/
theorem load_data_attempts_bound_and_delays (delay : Nat)
    (outs : List (AttemptOutcome α)) :
    (load_data delay outs).attempts ≤ outs.length ∧
    (load_data delay outs).sleeps =
      List.replicate ((load_data delay outs).attempts - 1) delay := by
  induction outs with
  | nil => exact ⟨Nat.le_refl 0, rfl⟩
  | cons o rest ih =>
      cases o with
      | ok d => exact ⟨by simp [load_data], rfl⟩
      | otherError => exact ⟨by simp [load_data], rfl⟩
      | opError =>
          cases rest with
          | nil => exact ⟨Nat.le_refl 1, rfl⟩
          | cons o2 r2 =>
              rw [load_data_cons_opError delay _ (by simp)]
              have hpos := load_data_attempts_pos delay o2 r2
              obtain ⟨hle, hsl⟩ := ih
              refine ⟨by simpa using Nat.succ_le_succ hle, ?_⟩
              rw [hsl]
              have : (load_data delay (o2 :: r2)).attempts + 1 - 1 =
                  ((load_data delay (o2 :: r2)).attempts - 1) + 1 := by omega
              rw [this, List.replicate_succ]

/-- C4: with the default configuration (`retries = 5`, i.e. an outcome list
of length `DEFAULT_RETRIES`), a call either returns the explicit empty
DataFrame, or lets an exception propagate (so no collection is exposed), or
returns exactly a DataFrame fetched whole by one of the attempts — never a
partial result and never the implicit `None`. -/
theorem load_data_no_partial_result (delay : Nat) (outs : List (AttemptOutcome α))
    (hlen : outs.length = DEFAULT_RETRIES) :
    (load_data delay outs).result = .empty ∨ (load_data delay outs).result = .exn ∨
      ∃ d, (load_data delay outs).result = .df d ∧ AttemptOutcome.ok d ∈ outs := by
  refine load_data_result_cases delay outs ?_
  intro h
  rw [h] at hlen
  simp [DEFAULT_RETRIES] at hlen

theorem load_data_no_partial_result_witness :
    (load_data 10 (List.replicate 5 (AttemptOutcome.opError (α := Nat)))).result = .empty ∨
    (load_data 10 (List.replicate 5 (AttemptOutcome.opError (α := Nat)))).result = .exn ∨
      ∃ d, (load_data 10 (List.replicate 5 (AttemptOutcome.opError (α := Nat)))).result =
        .df d ∧ AttemptOutcome.ok d ∈ List.replicate 5 (AttemptOutcome.opError (α := Nat)) :=
  load_data_no_partial_result 10 _ (by decide)

/-- C5: whenever the `total_value` column sums to `0` (in particular for
the empty DataFrame), the gross profit margin evaluates to `0` through the
explicit zero guard, with no division by zero performed. -/
theorem calculate_kpis_zero_revenue (df : List SalesRecord)
    (h : (df.map SalesRecord.total_value).sum = 0) :
    (calculate_kpis df).gross_profit_margin = 0 := by
  simp [calculate_kpis, h]

theorem calculate_kpis_zero_revenue_witness :
    ((List.map SalesRecord.total_value ([] : List SalesRecord)).sum = 0) ∧
    (calculate_kpis ([] : List SalesRecord)).gross_profit_margin = 0 :=
  ⟨rfl, calculate_kpis_zero_revenue ([] : List SalesRecord) rfl⟩

/-- The two-record scenario from the spec: records with
`(total_value, quantity_sold, gross_profit)` equal to `(100, 2, 20)` and
`(200, 3, 50)`. -/
def demo_records : List SalesRecord := [⟨100, 2, 20⟩, ⟨200, 3, 50⟩]

/-- C6: on the two-record scenario, total revenue is 300, average order
value is 150, total quantity sold is 5, average quantity sold is 2.5, and
the gross profit margin is within 0.01 of 23.33 percent. -/
theorem calculate_kpis_demo :
    (calculate_kpis demo_records).total_revenue = 300 ∧
    (calculate_kpis demo_records).avg_order_value = some 150 ∧
    (calculate_kpis demo_records).total_quantity_sold = 5 ∧
    (calculate_kpis demo_records).avg_quantity_sold = some (5 / 2) ∧
    |(calculate_kpis demo_records).gross_profit_margin - 2333 / 100| ≤ 1 / 100 := by
  have h : calculate_kpis demo_records =
      ⟨300, some 150, 5, some (5 / 2), 70 / 3⟩ := by
    simp only [calculate_kpis, demo_records, series_mean, List.map_cons, List.map_nil,
      List.sum_cons, List.sum_nil, List.isEmpty_cons, List.length_cons, List.length_nil]
    norm_num
  rw [h, abs_le]
  norm_num

/-- C7: a second `load_data` call made strictly within the 60-unit TTL
window after a call that refreshed the cache returns the identical cached
collection, leaves the cache entry unchanged, and performs no new store
round-trip (the contacted-store flag is `false`). -/
theorem cached_call_within_ttl (fetch : Nat → α) (t1 t2 : Nat)
    (h : t2 < t1 + TTL) :
    cached_call TTL fetch t2 (cached_call TTL fetch t1 none).2.1 =
      ((cached_call TTL fetch t1 none).1, (cached_call TTL fetch t1 none).2.1, false) := by
  simp [cached_call, h]

theorem cached_call_within_ttl_witness :
    (30 < 0 + TTL) ∧
    cached_call TTL (fun _ => (42 : Nat)) 30
        (cached_call TTL (fun _ => (42 : Nat)) 0 none).2.1 =
      ((cached_call TTL (fun _ => (42 : Nat)) 0 none).1,
       (cached_call TTL (fun _ => (42 : Nat)) 0 none).2.1, false) :=
  ⟨by decide, cached_call_within_ttl (fun _ => (42 : Nat)) 0 30 (by decide)⟩

/-- C8: if the first `i` attempts fail transiently and attempt `i + 1`
raises a failure other than `OperationalError`, the failure propagates out
of `load_data`: no warning is emitted, no empty-DataFrame fallback is
returned, and no further attempt is made (`attempts = i + 1`). -/
theorem load_data_other_error_propagates (delay i : Nat)
    (rest : List (AttemptOutcome α)) :
    (load_data delay
      (List.replicate i AttemptOutcome.opError ++ .otherError :: rest)).result = .exn ∧
    (load_data delay
      (List.replicate i AttemptOutcome.opError ++ .otherError :: rest)).warnings = 0 ∧
    (load_data delay
      (List.replicate i AttemptOutcome.opError ++ .otherError :: rest)).attempts = i + 1 := by
  induction i with
  | zero => exact ⟨rfl, rfl, rfl⟩
  | succ k ih =>
      rw [List.replicate_succ, List.cons_append,
        load_data_cons_opError delay _ (by simp)]
      obtain ⟨h1, h2, h3⟩ := ih
      exact ⟨h1, h2, by rw [h3]⟩

/-- C9: with `retries = 0` (an empty outcome list) the loop body never
runs: no attempt, no sleep, no warning, and the call returns Python's
implicit `None`, which is not the empty DataFrame the exhaustion contract
promises. -/
theorem load_data_zero_retries (delay : Nat) :
    load_data delay ([] : List (AttemptOutcome α)) = ⟨0, [], 0, .pyNone⟩ ∧
    (load_data delay ([] : List (AttemptOutcome α))).result ≠ .empty := by
  exact ⟨rfl, fun h => LoadReturn.noConfusion h⟩

/-- C10 counterexample: the collection a failed load (all five attempts
raising `OperationalError`) actually delivers to downstream code is the
column-less `pd.DataFrame()`, and on that frame `calculate_kpis` raises
`KeyError` at the first column selection `df['total_value']` — it does not
return the zero-totals/NaN-averages KPI tuple the claim describes. -/
theorem calculate_kpis_failed_load_raises :
    delivered (load_data 10 (List.replicate 5
        (AttemptOutcome.opError (α := PandasDF)))).result = some PandasDF.emptyFrame ∧
    calculate_kpis_frame PandasDF.emptyFrame = .error .total_value ∧
    calculate_kpis_frame PandasDF.emptyFrame ≠
      .ok ⟨0, none, 0, none, 0⟩ := by
  refine ⟨rfl, rfl, fun h => ?_⟩
  exact Except.noConfusion h

/-- C10 (amended): on a zero-row frame that carries the `sales_data`
schema, `calculate_kpis` returns total revenue 0, total quantity sold 0,
gross profit margin 0, and undefined (`NaN`, modelled `none`) averages; but
the frame a failed load delivers is the column-less `pd.DataFrame()`, on
which `calculate_kpis` raises `KeyError` at `df['total_value']` — so after
a failed load the dashboard surfaces an error instead of numeric KPIs. -/
theorem calculate_kpis_empty_schema_only :
    calculate_kpis_frame (PandasDF.salesTable []) = .ok ⟨0, none, 0, none, 0⟩ ∧
    delivered (load_data 10 (List.replicate 5
        (AttemptOutcome.opError (α := PandasDF)))).result = some PandasDF.emptyFrame ∧
    calculate_kpis_frame PandasDF.emptyFrame = .error .total_value := by
  refine ⟨?_, rfl, rfl⟩
  show Except.ok (calculate_kpis []) = _
  rw [show calculate_kpis [] = ⟨0, none, 0, none, 0⟩ from by decide]
